import Mathlib

/-!
Shallow embedding of the truuth-portal document lifecycle.

The definitions below translate the Express handlers in
`api/src/routes/documents.ts` and the helper functions of the truuth
client (`isValidPhilippinesPassport`, `isValidPhilippinesDriversLicence`,
classification result shapes) into Lean.  The persistent store (Prisma's
`Document` table) is a list of records; external HTTP calls (classify,
submit, poll) are passed in as `Except`-valued outcomes so each control
path of the handlers is a pure function of its inputs.  Handler outcomes
additionally record which row id was touched and whether the external
submit call was made, so that the theorems can speak about them.
-/

namespace TruuthPortal

/-! ## Data model -/

/-- Document categories from the `DocumentType` Prisma enum. -/
inductive DocumentType
  | PASSPORT
  | DRIVERS_LICENCE
  | RESUME
deriving DecidableEq

/-- Lifecycle states actually written by `documents.ts`. -/
inductive DocumentStatus
  | CLASSIFYING
  | SUBMITTING
  | PROCESSING
  | DONE
  | FAILED
  | CLASSIFICATION_FAILED
deriving DecidableEq

/-- A `{code, name}` pair inside a classification result. -/
structure CodeName where
  code : String
  name : String
deriving DecidableEq

/-- `ClassificationResult` from the truuth client: both fields optional. -/
structure ClassificationResult where
  country : Option CodeName
  documentType : Option CodeName
deriving DecidableEq

/-- Status values the external poll endpoint can return. -/
inductive PollStatus
  | PROCESSING
  | DONE
  | FAILED
deriving DecidableEq

/-- `VerifyStatusResult` from the truuth client; `extra` stands for the
opaque additional check-result fields (`[key: string]: unknown`). -/
structure VerifyStatusResult where
  documentVerifyId : String
  status : PollStatus
  extra : String
deriving DecidableEq

/-- `VerifySubmitResult` from the truuth client. -/
structure VerifySubmitResult where
  documentVerifyId : String
  status : String
deriving DecidableEq

/-- Values stored in the `verificationResult` JSON column: either the
inline `{status, message}` object written by the resume catch block, or a
poll result persisted by the status endpoint. -/
inductive VerificationPayload
  | obj (status : String) (message : String)
  | pollResult (r : VerifyStatusResult)
deriving DecidableEq

/-- One row of the `Document` table (timestamps omitted). -/
structure Document where
  id : Nat
  userId : Nat
  documentType : DocumentType
  fileName : String
  mimeType : String
  status : DocumentStatus
  documentVerifyId : Option String
  errorMessage : Option String
  verificationResult : Option VerificationPayload
  classificationResult : Option ClassificationResult
deriving DecidableEq

/-! ## Store -/

/-- The document table. -/
abbrev Store := List Document

/-- Prisma `findUnique` on the `userId_documentType` compound key. -/
def findByUserType (s : Store) (uid : Nat) (dt : DocumentType) : Option Document :=
  s.find? (fun d => d.userId == uid && d.documentType == dt)

/-- Prisma `findFirst` on `{id, userId}` (owner-scoped read). -/
def findByIdScoped (s : Store) (docId uid : Nat) : Option Document :=
  s.find? (fun d => d.id == docId && d.userId == uid)

/-- Prisma `findUnique` on `{id}` (unscoped read used to build responses). -/
def lookupId (s : Store) (i : Nat) : Option Document :=
  s.find? (fun d => d.id == i)

/-- Replace the first row satisfying `p` by its image under `f`. -/
def replaceFirst (p : Document → Bool) (f : Document → Document) : Store → Store
  | [] => []
  | d :: t => if p d then f d :: t else d :: replaceFirst p f t

/-- Prisma `update where {id}`. -/
def updateById (s : Store) (i : Nat) (f : Document → Document) : Store :=
  replaceFirst (fun d => d.id == i) f s

/-- Prisma `upsert` on the `userId_documentType` key: update the existing
row in place, or append a freshly created row.  Returns the resulting row
together with the new store, as Prisma returns the affected record. -/
def upsertWith (s : Store) (uid : Nat) (dt : DocumentType)
    (upd : Document → Document) (created : Document) : Document × Store :=
  match findByUserType s uid dt with
  | some d => (upd d, replaceFirst (fun e => e.userId == uid && e.documentType == dt) upd s)
  | none => (created, s ++ [created])

/-- Well-formed store: row ids are pairwise distinct (Prisma primary key). -/
def okStore (s : Store) : Prop :=
  List.Pairwise (fun a b => a.id ≠ b.id) s

/-! ## Truuth client helpers (from `lib/truuth.ts`) -/

/-- `result.country?.code === 'PHL' && result.documentType?.code === 'PASSPORT'`. -/
def isValidPhilippinesPassport (result : ClassificationResult) : Bool :=
  result.country.map CodeName.code == some "PHL" &&
  result.documentType.map CodeName.code == some "PASSPORT"

/-- `result.country?.code === 'PHL' && result.documentType?.code === 'DRIVERS_LICENCE'`. -/
def isValidPhilippinesDriversLicence (result : ClassificationResult) : Bool :=
  result.country.map CodeName.code == some "PHL" &&
  result.documentType.map CodeName.code == some "DRIVERS_LICENCE"

/-- JavaScript `v || fallback` on a possibly-absent string: the fallback
is taken both when the value is missing and when it is the (falsy) empty
string. -/
def jsOrString (v : Option String) (fallback : String) : String :=
  match v with
  | some str => if str = "" then fallback else str
  | none => fallback

/-- Helper `getDocumentDescription` of `documents.ts`:
`classification.country?.name || 'Unknown Country'` and
`classification.documentType?.name || 'Unknown Document'`. -/
def getDocumentDescription (classification : ClassificationResult) : String :=
  let country := jsOrString (classification.country.map CodeName.name) "Unknown Country"
  let docType := jsOrString (classification.documentType.map CodeName.name) "Unknown Document"
  country ++ " " ++ docType

/-- JavaScript truthiness of a nullable string column. -/
def truthy : Option String → Bool
  | some v => v != ""
  | none => false

/-! ## Literal strings of the handlers -/

def fileMissingMsg : String := "Please select a file to upload"

def invalidTypeMsg : String := "Invalid document type"

def idMimeMsg : String :=
  "Passport and Driver\x27s Licence must be uploaded as JPEG or PNG images. PDF files are not supported for ID documents."

def idSizeMsg : String :=
  "Image file is too large. Please upload an image smaller than 5MB."

def conflictMsg : String :=
  "This document type has already been verified. Please contact support if you need to re-submit."

def classifyFailStoredMsg : String :=
  "Unable to classify the document. Please ensure the image is clear and try again."

def classifyFailRespMsg : String :=
  "We couldn\x27t verify the document type. Please ensure the image is clear and shows the full document."

def submitFailStoredMsg : String :=
  "Failed to submit document for verification. Please try again."

def resumeSkippedMessage : String := "Resume verification is not required"

def notFoundMsg : String := "Document not found"

def inProgressMsg : String := "Verification is still in progress"

/-- Stored message naming the detected and expected document descriptions. -/
def appearsMsg (detectedType expectedType : String) : String :=
  "The uploaded document appears to be a " ++ detectedType ++
    ". Please upload a valid " ++ expectedType ++ "."

/-- Response message of the classification-mismatch rejection. -/
def invalidDocRespMsg (expectedType detectedType : String) : String :=
  "Invalid document type. Expected " ++ expectedType ++ " but detected " ++
    detectedType ++ ". Please upload the correct document."

/-- The `expectedType` string chosen per category in the classify branch. -/
def expectedTypeFor : DocumentType → String
  | .PASSPORT => "Philippines Passport"
  | .DRIVERS_LICENCE => "Philippines Driver\x27s Licence"
  | .RESUME => ""

/-! ## Upload handler -/

/-- Mime types accepted in-handler for PASSPORT / DRIVERS_LICENCE. -/
def ALLOWED_ID_MIMES : List String := ["image/jpeg", "image/png", "image/jpg"]

/-- Size ceiling for ID documents (5MB). -/
def MAX_ID_BYTES : Nat := 5 * 1024 * 1024

/-- The uploaded file as multer presents it to the handler. -/
structure FileInfo where
  originalname : String
  mimetype : String
  size : Nat
deriving DecidableEq

/-- Upload request after authentication: `req.userId`, `req.file`,
`req.body.documentType`. -/
structure UploadRequest where
  userId : Nat
  file : Option FileInfo
  documentTypeField : Option String
deriving DecidableEq

/-- Outcomes of the external calls an upload may make, plus the id Prisma
would assign to a newly created row. -/
structure UploadExt where
  classifyOutcome : Except Unit ClassificationResult
  submitOutcome : Except Unit VerifySubmitResult
  freshId : Nat

/-- Parse of `req.body.documentType` against the known category list. -/
def parseDocType : String → Option DocumentType
  | "PASSPORT" => some .PASSPORT
  | "DRIVERS_LICENCE" => some .DRIVERS_LICENCE
  | "RESUME" => some .RESUME
  | _ => none

/-- Document summary included in upload success responses. -/
structure DocSummary where
  id : Nat
  documentType : DocumentType
  fileName : String
  status : DocumentStatus
  documentVerifyId : Option String
deriving DecidableEq

/-- Summary without the `documentVerifyId` field (resume-skipped response). -/
structure DocSummaryNoVid where
  id : Nat
  documentType : DocumentType
  fileName : String
  status : DocumentStatus
deriving DecidableEq

def mkSummary (d : Document) : DocSummary :=
  ⟨d.id, d.documentType, d.fileName, d.status, d.documentVerifyId⟩

def mkSummaryNoVid (d : Document) : DocSummaryNoVid :=
  ⟨d.id, d.documentType, d.fileName, d.status⟩

/-- JSON bodies the upload handler can send. -/
inductive UploadResponse
  | ok (message : String) (document : Option DocSummary)
  | okSkipped (message : String) (document : Option DocSummaryNoVid)
  | err (httpStatus : Nat) (error : String)
  | errClassify (httpStatus : Nat) (error : String) (classification : ClassificationResult)
deriving DecidableEq

/-- HTTP status code of an upload response. -/
def UploadResponse.httpStatus : UploadResponse → Nat
  | .ok _ _ => 200
  | .okSkipped _ _ => 200
  | .err c _ => c
  | .errClassify c _ _ => c

/-- Result of one upload request: response, resulting store, whether the
external submit call was made, and the id of the touched row (if any). -/
structure UploadOutcome where
  response : UploadResponse
  store : Store
  submitCalled : Bool
  touchedId : Option Nat
deriving DecidableEq

/-- Helper `submitDocumentForVerification`: sets `SUBMITTING`, calls the
external submit; on success sets `PROCESSING` + verify id, on failure sets
`FAILED` + error message and rethrows (the `Bool` is `false` on throw). -/
def submitDocumentForVerification (s : Store) (documentId : Nat)
    (submitOutcome : Except Unit VerifySubmitResult) : Store × Bool :=
  let s1 := updateById s documentId (fun d => { d with status := .SUBMITTING })
  match submitOutcome with
  | .ok result =>
      (updateById s1 documentId (fun d =>
        { d with status := .PROCESSING, documentVerifyId := some result.documentVerifyId }), true)
  | .error _ =>
      (updateById s1 documentId (fun d =>
        { d with status := .FAILED, errorMessage := some submitFailStoredMsg }), false)

/-- Row created by the classify-branch upsert (`create:` payload). -/
def classifyCreated (uid freshId : Nat) (docType : DocumentType) (file : FileInfo) : Document :=
  { id := freshId, userId := uid, documentType := docType
    fileName := file.originalname, mimeType := file.mimetype
    status := .CLASSIFYING, documentVerifyId := none, errorMessage := none
    verificationResult := none, classificationResult := none }

/-- Field reset applied by the classify-branch upsert (`update:` payload). -/
def classifyUpdate (file : FileInfo) (e : Document) : Document :=
  { e with fileName := file.originalname, mimeType := file.mimetype
           status := .CLASSIFYING, errorMessage := none
           documentVerifyId := none, verificationResult := none
           classificationResult := none }

/-- Row created by the resume-branch upsert (`create:` payload). -/
def resumeCreated (uid freshId : Nat) (file : FileInfo) : Document :=
  { id := freshId, userId := uid, documentType := .RESUME
    fileName := file.originalname, mimeType := file.mimetype
    status := .SUBMITTING, documentVerifyId := none, errorMessage := none
    verificationResult := none, classificationResult := none }

/-- Field reset applied by the resume-branch upsert (`update:` payload);
note it does not touch `classificationResult`. -/
def resumeUpdate (file : FileInfo) (e : Document) : Document :=
  { e with fileName := file.originalname, mimeType := file.mimetype
           status := .SUBMITTING, errorMessage := none
           documentVerifyId := none, verificationResult := none }

/-- The `isValid` computation of the classify branch: the category-specific
validation rule applied to the classification (the `RESUME` arm keeps the
initial `false`, matching the untouched `let isValid = false`). -/
def classificationAccepted (docType : DocumentType) (c : ClassificationResult) : Bool :=
  match docType with
  | .PASSPORT => isValidPhilippinesPassport c
  | .DRIVERS_LICENCE => isValidPhilippinesDriversLicence c
  | .RESUME => false

/-- Classify branch of the upload handler (PASSPORT / DRIVERS_LICENCE). -/
def classifyBranch (uid : Nat) (ext : UploadExt) (docType : DocumentType)
    (file : FileInfo) (s : Store) : UploadOutcome :=
  let p := upsertWith s uid docType (classifyUpdate file)
    (classifyCreated uid ext.freshId docType file)
  let document := p.1
  let s1 := p.2
  match ext.classifyOutcome with
  | .error _ =>
      let s2 := updateById s1 document.id (fun d =>
        { d with status := .CLASSIFICATION_FAILED, errorMessage := some classifyFailStoredMsg })
      ⟨.err 400 classifyFailRespMsg, s2, false, some document.id⟩
  | .ok classification =>
      let s2 := updateById s1 document.id (fun d =>
        { d with classificationResult := some classification })
      let isValid : Bool := classificationAccepted docType classification
      let expectedType := expectedTypeFor docType
      if isValid then
        let q := submitDocumentForVerification s2 document.id ext.submitOutcome
        if q.2 then
          ⟨.ok "Document uploaded and submitted for verification"
            ((lookupId q.1 document.id).map mkSummary), q.1, true, some document.id⟩
        else
          let s4 := updateById q.1 document.id (fun d =>
            { d with status := .CLASSIFICATION_FAILED, errorMessage := some classifyFailStoredMsg })
          ⟨.err 400 classifyFailRespMsg, s4, true, some document.id⟩
      else
        let detectedType := getDocumentDescription classification
        let s3 := updateById s2 document.id (fun d =>
          { d with status := .CLASSIFICATION_FAILED
                   errorMessage := some (appearsMsg detectedType expectedType) })
        ⟨.errClassify 400 (invalidDocRespMsg expectedType detectedType) classification,
          s3, false, some document.id⟩

/-- Resume branch of the upload handler: skip classification, submit
directly; a failed submit downgrades to a skipped `DONE`. -/
def resumeBranch (uid : Nat) (ext : UploadExt) (file : FileInfo) (s : Store) : UploadOutcome :=
  let p := upsertWith s uid .RESUME (resumeUpdate file)
    (resumeCreated uid ext.freshId file)
  let document := p.1
  let s1 := p.2
  let q := submitDocumentForVerification s1 document.id ext.submitOutcome
  if q.2 then
    ⟨.ok "Resume uploaded and submitted for verification"
      ((lookupId q.1 document.id).map mkSummary), q.1, true, some document.id⟩
  else
    let s3 := updateById q.1 document.id (fun d =>
      { d with status := .DONE, verificationResult := some (.obj "SKIPPED" resumeSkippedMessage) })
    ⟨.okSkipped "Resume uploaded successfully"
      ((lookupId s3 document.id).map mkSummaryNoVid), s3, true, some document.id⟩

/-- The `POST /upload` handler. -/
def uploadHandler (req : UploadRequest) (ext : UploadExt) (s : Store) : UploadOutcome :=
  match req.file with
  | none => ⟨.err 400 fileMissingMsg, s, false, none⟩
  | some file =>
    match req.documentTypeField.bind parseDocType with
    | none => ⟨.err 400 invalidTypeMsg, s, false, none⟩
    | some docType =>
      if (docType = .PASSPORT ∨ docType = .DRIVERS_LICENCE) ∧ file.mimetype ∉ ALLOWED_ID_MIMES then
        ⟨.err 400 idMimeMsg, s, false, none⟩
      else if (docType = .PASSPORT ∨ docType = .DRIVERS_LICENCE) ∧ MAX_ID_BYTES < file.size then
        ⟨.err 400 idSizeMsg, s, false, none⟩
      else
        match findByUserType s req.userId docType with
        | some existingDoc =>
          if existingDoc.status = .DONE then
            ⟨.err 409 conflictMsg, s, false, none⟩
          else if docType = .PASSPORT ∨ docType = .DRIVERS_LICENCE then
            classifyBranch req.userId ext docType file s
          else
            resumeBranch req.userId ext file s
        | none =>
          if docType = .PASSPORT ∨ docType = .DRIVERS_LICENCE then
            classifyBranch req.userId ext docType file s
          else
            resumeBranch req.userId ext file s

/-! ## Status handler -/

/-- JSON bodies of `GET /:documentId/status`. -/
inductive StatusResponse
  | ok (id : Nat) (status : DocumentStatus) (hasResult : Bool)
  | notFound (error : String)
deriving DecidableEq

/-- Lift an external poll status into the stored status column. -/
def pollStatusToDoc : PollStatus → DocumentStatus
  | .PROCESSING => .PROCESSING
  | .DONE => .DONE
  | .FAILED => .FAILED

/-- The `hasResult` flag computed from a stored status. -/
def hasResultOf (st : DocumentStatus) : Bool :=
  st == .DONE || st == .FAILED

/-- The `GET /:documentId/status` handler: owner-scoped read; when the
document is `PROCESSING` with a truthy verify id, one poll attempt is
made, and a terminal poll result is persisted; a poll failure falls
through to reporting the stored state. -/
def statusHandler (uid docId : Nat) (pollOutcome : Except Unit VerifyStatusResult)
    (s : Store) : StatusResponse × Store :=
  match findByIdScoped s docId uid with
  | none => (.notFound notFoundMsg, s)
  | some document =>
    if document.status = .PROCESSING ∧ truthy document.documentVerifyId = true then
      match pollOutcome with
      | .ok result =>
        if result.status = .DONE ∨ result.status = .FAILED then
          let s1 := updateById s document.id (fun d =>
            { d with status := pollStatusToDoc result.status
                     verificationResult := some (.pollResult result) })
          (.ok document.id (pollStatusToDoc result.status) true, s1)
        else
          (.ok document.id document.status (hasResultOf document.status), s)
      | .error _ =>
          (.ok document.id document.status (hasResultOf document.status), s)
    else
      (.ok document.id document.status (hasResultOf document.status), s)

/-! ## Result handler -/

/-- Fields selected by the result endpoint (timestamps omitted). -/
structure ResultView where
  id : Nat
  documentType : DocumentType
  fileName : String
  status : DocumentStatus
  verificationResult : Option VerificationPayload
  classificationResult : Option ClassificationResult
deriving DecidableEq

def toResultView (d : Document) : ResultView :=
  ⟨d.id, d.documentType, d.fileName, d.status, d.verificationResult, d.classificationResult⟩

/-- JSON bodies of `GET /:documentId/result`. -/
inductive ResultResponse
  | ok (document : ResultView)
  | notFound (error : String)
  | invalidState (error : String)
deriving DecidableEq

/-- The `GET /:documentId/result` handler: owner-scoped read; HTTP 400
unless the stored status is `DONE` or `FAILED`. -/
def resultHandler (uid docId : Nat) (s : Store) : ResultResponse :=
  match findByIdScoped s docId uid with
  | none => .notFound notFoundMsg
  | some document =>
    if document.status ≠ .DONE ∧ document.status ≠ .FAILED then
      .invalidState inProgressMsg
    else
      .ok (toResultView document)

/-! ## Store lemmas -/

/-- Updating a row by id and then looking the id up yields the updated row
(when the update preserves the id). -/
theorem lookupId_updateById (s : Store) (i : Nat) (f : Document → Document)
    (hf : ∀ d, (f d).id = d.id) :
    lookupId (updateById s i f) i = (lookupId s i).map f := by
  induction s with
  | nil => rfl
  | cons d t ih =>
    simp only [updateById, replaceFirst] at ih ⊢
    by_cases h : (d.id == i) = true
    · have hfb : ((f d).id == i) = true := by rw [hf d]; exact h
      simp [lookupId, List.find?, h, hfb]
    · have hb : (d.id == i) = false := by simpa using h
      rw [if_neg (by simp [hb])]
      simpa [lookupId, List.find?, hb] using ih

/-- Replacing the first row matched by `p` and then looking up its id
yields the replaced row, in a store with distinct ids. -/
theorem lookupId_replaceFirst (p : Document → Bool) (f : Document → Document)
    (s : Store) (d : Document)
    (hfind : s.find? p = some d)
    (hids : okStore s)
    (hf : (f d).id = d.id) :
    lookupId (replaceFirst p f s) d.id = some (f d) := by
  induction s with
  | nil => cases hfind
  | cons e t ih =>
    by_cases h : p e = true
    · simp only [List.find?, h] at hfind
      injection hfind with hd
      subst hd
      have hb : ((f e).id == e.id) = true := by simp [hf]
      simp [replaceFirst, h, lookupId, List.find?, hb]
    · have hb : p e = false := by simpa using h
      simp only [List.find?, hb] at hfind
      have hdmem : d ∈ t := List.mem_of_find?_eq_some hfind
      have hne : e.id ≠ d.id := (List.pairwise_cons.mp hids).1 d hdmem
      have hids' : okStore t := (List.pairwise_cons.mp hids).2
      have hne' : (e.id == d.id) = false := by simpa using hne
      have hredu : replaceFirst p f (e :: t) = e :: replaceFirst p f t := by
        simp [replaceFirst, hb]
      rw [hredu]
      simpa [lookupId, List.find?, hne'] using ih hfind hids'

/-- A row appended to a store where its id is fresh is found by that id. -/
theorem lookupId_append_fresh (s : Store) (c : Document)
    (h : lookupId s c.id = none) :
    lookupId (s ++ [c]) c.id = some c := by
  simp only [lookupId] at h ⊢
  rw [List.find?_append, h]
  simp

/-- The row returned by `upsertWith` is found at its id in the resulting
store, provided ids are distinct and the fresh id is indeed fresh. -/
theorem upsertWith_lookup (s : Store) (uid : Nat) (dt : DocumentType)
    (upd : Document → Document) (created : Document)
    (hupd : ∀ e, (upd e).id = e.id)
    (hids : okStore s)
    (hfresh : lookupId s created.id = none) :
    lookupId (upsertWith s uid dt upd created).2 (upsertWith s uid dt upd created).1.id =
      some (upsertWith s uid dt upd created).1 := by
  unfold upsertWith
  cases hf : findByUserType s uid dt with
  | none => simpa using lookupId_append_fresh s created hfresh
  | some d =>
    simp only
    rw [hupd d]
    exact lookupId_replaceFirst _ upd s d hf hids (hupd d)

/-- Owner-scoped lookup after an id-keyed update, in a store with
distinct ids: the update is visible through the scoped read. -/
theorem findByIdScoped_updateById (s : Store) (i uid : Nat) (f : Document → Document)
    (hids : okStore s)
    (hfid : ∀ d, (f d).id = d.id)
    (hfuid : ∀ d, (f d).userId = d.userId) :
    findByIdScoped (updateById s i f) i uid = (findByIdScoped s i uid).map f := by
  induction s with
  | nil => rfl
  | cons e t ih =>
    have hids' : okStore t := (List.pairwise_cons.mp hids).2
    by_cases h : (e.id == i) = true
    · have heid : e.id = i := by simpa using h
      simp only [updateById, replaceFirst, if_pos h, findByIdScoped]
      by_cases hu : (e.userId == uid) = true
      · have h1 : ((f e).id == i && (f e).userId == uid) = true := by
          simp only [hfid e, hfuid e]
          simp [h, hu]
        have h2 : (e.id == i && e.userId == uid) = true := by simp [h, hu]
        simp [List.find?, h1, h2]
      · have hu' : (e.userId == uid) = false := by simpa using hu
        have h1 : ((f e).id == i && (f e).userId == uid) = false := by
          simp only [hfid e, hfuid e]
          simp [hu']
        have h2 : (e.id == i && e.userId == uid) = false := by simp [hu']
        have hnone : t.find? (fun d => d.id == i && d.userId == uid) = none := by
          rw [List.find?_eq_none]
          intro x hx
          have hxne : e.id ≠ x.id := (List.pairwise_cons.mp hids).1 x hx
          have hxid : (x.id == i) = false := by
            simp only [beq_eq_false_iff_ne, ne_eq]
            intro hxi
            exact hxne (by rw [heid, hxi])
          simp [hxid]
        simp [List.find?, h1, h2, hnone]
    · have hb : (e.id == i) = false := by simpa using h
      have h2 : (e.id == i && e.userId == uid) = false := by simp [hb]
      have hredu : replaceFirst (fun d => d.id == i) f (e :: t) =
          e :: replaceFirst (fun d => d.id == i) f t := by
        simp [replaceFirst, hb]
      simp only [updateById] at ih ⊢
      rw [hredu]
      simpa [findByIdScoped, List.find?, h2] using ih hids'

/-- A successful owner-scoped lookup pins down the id and owner of the row. -/
theorem findByIdScoped_props {s : Store} {docId uid : Nat} {d : Document}
    (h : findByIdScoped s docId uid = some d) : d.id = docId ∧ d.userId = uid := by
  have hp := List.find?_some h
  simpa using hp

/-- Effect of `submitDocumentForVerification` when the external submit
throws: the row ends `FAILED` with the stored retry message, and the
helper rethrows (`false`). -/
theorem submitDocumentForVerification_lookup_error
    (s : Store) (i : Nat) (d : Document)
    (hl : lookupId s i = some d) :
    lookupId (submitDocumentForVerification s i (.error ())).1 i =
      some { d with status := .FAILED, errorMessage := some submitFailStoredMsg } ∧
    (submitDocumentForVerification s i (.error ())).2 = false := by
  constructor
  · unfold submitDocumentForVerification
    simp only
    have h1 := lookupId_updateById s i
      (fun d => { d with status := DocumentStatus.SUBMITTING }) (fun e => rfl)
    have h2 := lookupId_updateById
      (updateById s i (fun d => { d with status := DocumentStatus.SUBMITTING })) i
      (fun d => { d with status := DocumentStatus.FAILED, errorMessage := some submitFailStoredMsg })
      (fun e => rfl)
    rw [h2, h1, hl]
    rfl
  · rfl

/-- Effect of `submitDocumentForVerification` on success: the row ends
`PROCESSING` carrying the external verify id. -/
theorem submitDocumentForVerification_lookup_ok
    (s : Store) (i : Nat) (d : Document) (r : VerifySubmitResult)
    (hl : lookupId s i = some d) :
    lookupId (submitDocumentForVerification s i (.ok r)).1 i =
      some { d with status := .PROCESSING, documentVerifyId := some r.documentVerifyId } ∧
    (submitDocumentForVerification s i (.ok r)).2 = true := by
  constructor
  · unfold submitDocumentForVerification
    simp only
    have h1 := lookupId_updateById s i
      (fun d => { d with status := DocumentStatus.SUBMITTING }) (fun e => rfl)
    have h2 := lookupId_updateById
      (updateById s i (fun d => { d with status := DocumentStatus.SUBMITTING })) i
      (fun d => { d with status := DocumentStatus.PROCESSING, documentVerifyId := some r.documentVerifyId })
      (fun e => rfl)
    rw [h2, h1, hl]
    rfl
  · rfl

/-- Final stored row of a resume upload whose external submit throws:
`DONE` with the skipped payload, while `errorMessage` keeps the message
written by the rethrowing submit helper. -/
theorem resumeBranch_submit_failure (uid : Nat) (ext : UploadExt) (file : FileInfo)
    (s : Store) (hids : okStore s) (hfresh : lookupId s ext.freshId = none)
    (hsub : ext.submitOutcome = .error ()) :
    ∃ i d, (resumeBranch uid ext file s).touchedId = some i ∧
      lookupId (resumeBranch uid ext file s).store i = some d ∧
      d.status = .DONE ∧
      d.verificationResult = some (.obj "SKIPPED" resumeSkippedMessage) ∧
      d.errorMessage = some submitFailStoredMsg ∧
      (resumeBranch uid ext file s).submitCalled = true := by
  have hU := upsertWith_lookup s uid .RESUME (resumeUpdate file)
    (resumeCreated uid ext.freshId file) (fun e => rfl) hids hfresh
  unfold resumeBranch
  rw [hsub]
  set P := upsertWith s uid .RESUME (resumeUpdate file) (resumeCreated uid ext.freshId file)
    with hP
  have hsubmit := submitDocumentForVerification_lookup_error P.2 P.1.id P.1 hU
  simp only [hsubmit.2, Bool.false_eq_true, if_false]
  refine ⟨P.1.id,
    { P.1 with status := .DONE, errorMessage := some submitFailStoredMsg, verificationResult := some (.obj "SKIPPED" resumeSkippedMessage) },
    rfl, ?_, rfl, rfl, rfl, by trivial⟩
  have h3 := lookupId_updateById (submitDocumentForVerification P.2 P.1.id (.error ())).1 P.1.id
    (fun d => { d with status := DocumentStatus.DONE, verificationResult := some (.obj "SKIPPED" resumeSkippedMessage) })
    (fun e => rfl)
  rw [h3, hsubmit.1]
  rfl

/-- The upserted row of the classify branch starts with a cleared
classification payload (both on update and on create). -/
theorem classifyBranch_upsert_clears_classification (s : Store) (uid : Nat)
    (dt : DocumentType) (file : FileInfo) (freshId : Nat) :
    (upsertWith s uid dt (classifyUpdate file) (classifyCreated uid freshId dt file)).1.classificationResult
      = none := by
  unfold upsertWith
  cases hf : findByUserType s uid dt <;> simp [hf, classifyUpdate, classifyCreated]

/-- Final stored row of a classify-branch upload whose classify call
throws: `CLASSIFICATION_FAILED`, generic message, no classification
payload, submit never called. -/
theorem classifyBranch_classify_error (uid : Nat) (ext : UploadExt) (docType : DocumentType)
    (file : FileInfo) (s : Store) (hids : okStore s) (hfresh : lookupId s ext.freshId = none)
    (hcls : ext.classifyOutcome = .error ()) :
    ∃ i d, (classifyBranch uid ext docType file s).touchedId = some i ∧
      lookupId (classifyBranch uid ext docType file s).store i = some d ∧
      d.status = .CLASSIFICATION_FAILED ∧
      d.errorMessage = some classifyFailStoredMsg ∧
      d.classificationResult = none ∧
      (classifyBranch uid ext docType file s).submitCalled = false ∧
      (classifyBranch uid ext docType file s).response = .err 400 classifyFailRespMsg := by
  have hU := upsertWith_lookup s uid docType (classifyUpdate file)
    (classifyCreated uid ext.freshId docType file) (fun e => rfl) hids hfresh
  have hcr := classifyBranch_upsert_clears_classification s uid docType file ext.freshId
  unfold classifyBranch
  rw [hcls]
  set P := upsertWith s uid docType (classifyUpdate file) (classifyCreated uid ext.freshId docType file)
    with hP
  refine ⟨P.1.id,
    { P.1 with status := .CLASSIFICATION_FAILED, errorMessage := some classifyFailStoredMsg },
    rfl, ?_, rfl, rfl, hcr, rfl, rfl⟩
  have h3 := lookupId_updateById P.2 P.1.id
    (fun d => { d with status := DocumentStatus.CLASSIFICATION_FAILED, errorMessage := some classifyFailStoredMsg })
    (fun e => rfl)
  rw [h3, hU]
  rfl

/-- Final stored row of a classify-branch upload whose classification is
rejected by the category rule: `CLASSIFICATION_FAILED`, message naming the
detected and expected types, raw payload persisted, submit never called. -/
theorem classifyBranch_invalid (uid : Nat) (ext : UploadExt) (docType : DocumentType)
    (file : FileInfo) (s : Store) (c : ClassificationResult)
    (hids : okStore s) (hfresh : lookupId s ext.freshId = none)
    (hcls : ext.classifyOutcome = .ok c)
    (hacc : classificationAccepted docType c = false) :
    ∃ i d, (classifyBranch uid ext docType file s).touchedId = some i ∧
      lookupId (classifyBranch uid ext docType file s).store i = some d ∧
      d.status = .CLASSIFICATION_FAILED ∧
      d.errorMessage = some (appearsMsg (getDocumentDescription c) (expectedTypeFor docType)) ∧
      d.classificationResult = some c ∧
      (classifyBranch uid ext docType file s).submitCalled = false ∧
      (classifyBranch uid ext docType file s).response =
        .errClassify 400 (invalidDocRespMsg (expectedTypeFor docType) (getDocumentDescription c)) c := by
  have hU := upsertWith_lookup s uid docType (classifyUpdate file)
    (classifyCreated uid ext.freshId docType file) (fun e => rfl) hids hfresh
  unfold classifyBranch
  rw [hcls]
  set P := upsertWith s uid docType (classifyUpdate file) (classifyCreated uid ext.freshId docType file)
    with hP
  simp only [hacc, Bool.false_eq_true, if_false]
  refine ⟨P.1.id,
    { P.1 with classificationResult := some c, status := .CLASSIFICATION_FAILED, errorMessage := some (appearsMsg (getDocumentDescription c) (expectedTypeFor docType)) },
    by trivial, ?_, by trivial, by trivial, by trivial, by trivial, by trivial⟩
  have h2 := lookupId_updateById P.2 P.1.id
    (fun d => { d with classificationResult := some c }) (fun e => rfl)
  have h3 := lookupId_updateById (updateById P.2 P.1.id (fun d => { d with classificationResult := some c })) P.1.id
    (fun d => { d with status := DocumentStatus.CLASSIFICATION_FAILED, errorMessage := some (appearsMsg (getDocumentDescription c) (expectedTypeFor docType)) })
    (fun e => rfl)
  rw [h3, h2, hU]
  rfl

/-- Final stored row of a classify-branch upload whose classification is
accepted and whose submit succeeds: `PROCESSING` with the external verify
id, raw payload persisted, submit called. -/
theorem classifyBranch_valid_submit_ok (uid : Nat) (ext : UploadExt) (docType : DocumentType)
    (file : FileInfo) (s : Store) (c : ClassificationResult) (r : VerifySubmitResult)
    (hids : okStore s) (hfresh : lookupId s ext.freshId = none)
    (hcls : ext.classifyOutcome = .ok c)
    (hacc : classificationAccepted docType c = true)
    (hsub : ext.submitOutcome = .ok r) :
    ∃ i d, (classifyBranch uid ext docType file s).touchedId = some i ∧
      lookupId (classifyBranch uid ext docType file s).store i = some d ∧
      d.status = .PROCESSING ∧
      d.documentVerifyId = some r.documentVerifyId ∧
      d.classificationResult = some c ∧
      (classifyBranch uid ext docType file s).submitCalled = true := by
  have hU := upsertWith_lookup s uid docType (classifyUpdate file)
    (classifyCreated uid ext.freshId docType file) (fun e => rfl) hids hfresh
  unfold classifyBranch
  rw [hcls, hsub]
  set P := upsertWith s uid docType (classifyUpdate file) (classifyCreated uid ext.freshId docType file)
    with hP
  have h2 := lookupId_updateById P.2 P.1.id
    (fun d => { d with classificationResult := some c }) (fun e => rfl)
  have hl2 : lookupId (updateById P.2 P.1.id (fun d => { d with classificationResult := some c })) P.1.id
      = some { P.1 with classificationResult := some c } := by
    rw [h2, hU]; rfl
  have hsubmit := submitDocumentForVerification_lookup_ok
    (updateById P.2 P.1.id (fun d => { d with classificationResult := some c })) P.1.id
    { P.1 with classificationResult := some c } r hl2
  simp only [hacc, if_true, hsubmit.2]
  refine ⟨P.1.id,
    { P.1 with classificationResult := some c, status := .PROCESSING, documentVerifyId := some r.documentVerifyId },
    by trivial, ?_, by trivial, by trivial, by trivial, by trivial⟩
  rw [hsubmit.1]

/-- Final stored row of a classify-branch upload whose classification is
accepted but whose submit throws: the rethrown error is caught by the
classify catch block, so the row ends `CLASSIFICATION_FAILED` with the
generic classify message (not `FAILED`); the raw payload is kept. -/
theorem classifyBranch_valid_submit_error (uid : Nat) (ext : UploadExt) (docType : DocumentType)
    (file : FileInfo) (s : Store) (c : ClassificationResult)
    (hids : okStore s) (hfresh : lookupId s ext.freshId = none)
    (hcls : ext.classifyOutcome = .ok c)
    (hacc : classificationAccepted docType c = true)
    (hsub : ext.submitOutcome = .error ()) :
    ∃ i d, (classifyBranch uid ext docType file s).touchedId = some i ∧
      lookupId (classifyBranch uid ext docType file s).store i = some d ∧
      d.status = .CLASSIFICATION_FAILED ∧
      d.errorMessage = some classifyFailStoredMsg ∧
      d.classificationResult = some c ∧
      (classifyBranch uid ext docType file s).submitCalled = true := by
  have hU := upsertWith_lookup s uid docType (classifyUpdate file)
    (classifyCreated uid ext.freshId docType file) (fun e => rfl) hids hfresh
  unfold classifyBranch
  rw [hcls, hsub]
  set P := upsertWith s uid docType (classifyUpdate file) (classifyCreated uid ext.freshId docType file)
    with hP
  have h2 := lookupId_updateById P.2 P.1.id
    (fun d => { d with classificationResult := some c }) (fun e => rfl)
  have hl2 : lookupId (updateById P.2 P.1.id (fun d => { d with classificationResult := some c })) P.1.id
      = some { P.1 with classificationResult := some c } := by
    rw [h2, hU]; rfl
  have hsubmit := submitDocumentForVerification_lookup_error
    (updateById P.2 P.1.id (fun d => { d with classificationResult := some c })) P.1.id
    { P.1 with classificationResult := some c } hl2
  simp only [hacc, if_true, hsubmit.2, Bool.false_eq_true, if_false]
  refine ⟨P.1.id,
    { P.1 with classificationResult := some c, status := .CLASSIFICATION_FAILED, errorMessage := some classifyFailStoredMsg },
    by trivial, ?_, by trivial, by trivial, by trivial, by trivial⟩
  have h4 := lookupId_updateById
    (submitDocumentForVerification (updateById P.2 P.1.id (fun d => { d with classificationResult := some c })) P.1.id (.error ())).1
    P.1.id
    (fun d => { d with status := DocumentStatus.CLASSIFICATION_FAILED, errorMessage := some classifyFailStoredMsg })
    (fun e => rfl)
  rw [h4, hsubmit.1]
  rfl

/-- With a returned classification, the classify branch makes the external
submit call exactly when the category rule accepts the payload. -/
theorem classifyBranch_submitCalled (uid : Nat) (ext : UploadExt) (docType : DocumentType)
    (file : FileInfo) (s : Store) (c : ClassificationResult)
    (hcls : ext.classifyOutcome = .ok c) :
    (classifyBranch uid ext docType file s).submitCalled = classificationAccepted docType c := by
  unfold classifyBranch
  rw [hcls]
  cases hacc : classificationAccepted docType c
  · simp [hacc]
  · cases hsub : ext.submitOutcome with
    | ok r => simp [hacc, hsub, submitDocumentForVerification]
    | error u => simp [hacc, hsub, submitDocumentForVerification]

/-- After passing input validation and the conflict check, the upload
handler runs the branch selected by the category. -/
theorem uploadHandler_to_branch
    {req : UploadRequest} {s : Store} {f : FileInfo} {dt : DocumentType}
    (ext : UploadExt)
    (hfile : req.file = some f)
    (hdt : req.documentTypeField.bind parseDocType = some dt)
    (hmime : (dt = .PASSPORT ∨ dt = .DRIVERS_LICENCE) → f.mimetype ∈ ALLOWED_ID_MIMES)
    (hsize : (dt = .PASSPORT ∨ dt = .DRIVERS_LICENCE) → f.size ≤ MAX_ID_BYTES)
    (hnd : ∀ d, findByUserType s req.userId dt = some d → d.status ≠ .DONE) :
    uploadHandler req ext s =
      if dt = .PASSPORT ∨ dt = .DRIVERS_LICENCE then classifyBranch req.userId ext dt f s
      else resumeBranch req.userId ext f s := by
  have h1 : ¬ ((dt = .PASSPORT ∨ dt = .DRIVERS_LICENCE) ∧ f.mimetype ∉ ALLOWED_ID_MIMES) :=
    fun hc => hc.2 (hmime hc.1)
  have h2 : ¬ ((dt = .PASSPORT ∨ dt = .DRIVERS_LICENCE) ∧ MAX_ID_BYTES < f.size) :=
    fun hc => absurd (hsize hc.1) (by omega)
  simp only [uploadHandler, hfile, hdt]
  rw [if_neg h1, if_neg h2]
  cases hf : findByUserType s req.userId dt with
  | none => rfl
  | some d => simp [hnd d hf]

/-! ## Claim theorems -/

/-- C1 (amended): an authenticated upload that passes input validation
(file present, known category, and for PASSPORT/DRIVERS_LICENCE an
allowed image media type and size within the 5MB limit) and targets an
(owner, category) pair whose stored Document is `DONE` is rejected with
Conflict (HTTP 409) and the store — hence every field of the existing
record — is left unchanged, no submit call made and no row touched. -/
theorem upload_conflict_when_existing_done
    {req : UploadRequest} {ext : UploadExt} {s : Store} {f : FileInfo}
    {dt : DocumentType} {d : Document}
    (hfile : req.file = some f)
    (hdt : req.documentTypeField.bind parseDocType = some dt)
    (hmime : (dt = .PASSPORT ∨ dt = .DRIVERS_LICENCE) → f.mimetype ∈ ALLOWED_ID_MIMES)
    (hsize : (dt = .PASSPORT ∨ dt = .DRIVERS_LICENCE) → f.size ≤ MAX_ID_BYTES)
    (hex : findByUserType s req.userId dt = some d)
    (hdone : d.status = .DONE) :
    uploadHandler req ext s = ⟨.err 409 conflictMsg, s, false, none⟩ := by
  have h1 : ¬ ((dt = .PASSPORT ∨ dt = .DRIVERS_LICENCE) ∧ f.mimetype ∉ ALLOWED_ID_MIMES) :=
    fun hc => hc.2 (hmime hc.1)
  have h2 : ¬ ((dt = .PASSPORT ∨ dt = .DRIVERS_LICENCE) ∧ MAX_ID_BYTES < f.size) :=
    fun hc => absurd (hsize hc.1) (by omega)
  simp only [uploadHandler, hfile, hdt]
  rw [if_neg h1, if_neg h2, hex]
  simp [hdone]

/-- Witness for C1's amended theorem at a concrete input. -/
theorem upload_conflict_when_existing_done_witness :
    findByUserType [(⟨7, 1, .PASSPORT, "old.jpg", "image/jpeg", .DONE, some "VID", none, none, none⟩ : Document)] 1 .PASSPORT =
      some ⟨7, 1, .PASSPORT, "old.jpg", "image/jpeg", .DONE, some "VID", none, none, none⟩ ∧
    uploadHandler ⟨1, some ⟨"p.jpg", "image/jpeg", 100⟩, some "PASSPORT"⟩ ⟨.error (), .error (), 99⟩
      [⟨7, 1, .PASSPORT, "old.jpg", "image/jpeg", .DONE, some "VID", none, none, none⟩] =
      ⟨.err 409 conflictMsg, [⟨7, 1, .PASSPORT, "old.jpg", "image/jpeg", .DONE, some "VID", none, none, none⟩], false, none⟩ :=
  ⟨by decide, upload_conflict_when_existing_done rfl rfl
    (fun _ => by decide) (fun _ => by decide) rfl rfl⟩

/-- C1 counterexample: with the stored PASSPORT row already `DONE`, an
upload carrying a PDF file is rejected by the media-type validation with
HTTP 400 before the conflict check is ever reached, so the claimed
unconditional 409 does not hold. -/
theorem upload_conflict_counterexample :
    (uploadHandler ⟨1, some ⟨"p.pdf", "application/pdf", 100⟩, some "PASSPORT"⟩ ⟨.error (), .error (), 99⟩
      [⟨7, 1, .PASSPORT, "old.jpg", "image/jpeg", .DONE, some "VID", none, none, none⟩]).response =
      .err 400 idMimeMsg ∧
    (uploadHandler ⟨1, some ⟨"p.pdf", "application/pdf", 100⟩, some "PASSPORT"⟩ ⟨.error (), .error (), 99⟩
      [⟨7, 1, .PASSPORT, "old.jpg", "image/jpeg", .DONE, some "VID", none, none, none⟩]).response.httpStatus ≠ 409 := by
  constructor
  · decide
  · decide

/-- C4: polling an owned `PROCESSING` document with a verify id set, when
the external poll call throws, leaves the store untouched and responds
with the previously stored state (`PROCESSING`, `hasResult = false`);
since the handler is a total function, no exception propagates. -/
theorem status_poll_failure_keeps_state
    {s : Store} {uid docId : Nat} {d : Document}
    (hfind : findByIdScoped s docId uid = some d)
    (hst : d.status = .PROCESSING)
    (hvid : truthy d.documentVerifyId = true) :
    statusHandler uid docId (.error ()) s = (.ok docId .PROCESSING false, s) := by
  have hp := findByIdScoped_props hfind
  simp only [statusHandler, hfind]
  rw [if_pos ⟨hst, hvid⟩]
  simp [hst, hp.1, hasResultOf]

/-- Witness for C4 at a concrete input. -/
theorem status_poll_failure_keeps_state_witness :
    findByIdScoped [(⟨7, 1, .PASSPORT, "a.jpg", "image/jpeg", .PROCESSING, some "VID1", none, none, none⟩ : Document)] 7 1 =
      some ⟨7, 1, .PASSPORT, "a.jpg", "image/jpeg", .PROCESSING, some "VID1", none, none, none⟩ ∧
    statusHandler 1 7 (.error ())
      [⟨7, 1, .PASSPORT, "a.jpg", "image/jpeg", .PROCESSING, some "VID1", none, none, none⟩] =
      (.ok 7 .PROCESSING false, [⟨7, 1, .PASSPORT, "a.jpg", "image/jpeg", .PROCESSING, some "VID1", none, none, none⟩]) :=
  ⟨by decide, status_poll_failure_keeps_state rfl rfl (by decide)⟩

/-- C7: an upload request with an unknown category, or a
PASSPORT/DRIVERS_LICENCE file whose declared media type is not a
JPEG/PNG image, or such a file over 5MB, is rejected with HTTP 400 and
neither creates nor mutates any Document row (the store is returned
unchanged, no row is touched and no submit call is made). -/
theorem upload_invalid_input_no_store_access
    {req : UploadRequest} {ext : UploadExt} {s : Store}
    (h : req.documentTypeField.bind parseDocType = none ∨
      (∃ f dt, req.file = some f ∧ req.documentTypeField.bind parseDocType = some dt ∧
        (dt = .PASSPORT ∨ dt = .DRIVERS_LICENCE) ∧
        (f.mimetype ∉ ALLOWED_ID_MIMES ∨ MAX_ID_BYTES < f.size))) :
    (uploadHandler req ext s).response.httpStatus = 400 ∧
    (uploadHandler req ext s).store = s ∧
    (uploadHandler req ext s).submitCalled = false ∧
    (uploadHandler req ext s).touchedId = none := by
  rcases h with hnone | ⟨f, dt, hfile, hdt, hid, hbad⟩
  · cases hfe : req.file with
    | none => simp [uploadHandler, hfe, UploadResponse.httpStatus]
    | some f => simp [uploadHandler, hfe, hnone, UploadResponse.httpStatus]
  · rcases hbad with hm | hsz
    · have hcond : (dt = .PASSPORT ∨ dt = .DRIVERS_LICENCE) ∧ f.mimetype ∉ ALLOWED_ID_MIMES :=
        ⟨hid, hm⟩
      simp only [uploadHandler, hfile, hdt]
      rw [if_pos hcond]
      simp [UploadResponse.httpStatus]
    · by_cases hm : f.mimetype ∈ ALLOWED_ID_MIMES
      · have hc1 : ¬ ((dt = .PASSPORT ∨ dt = .DRIVERS_LICENCE) ∧ f.mimetype ∉ ALLOWED_ID_MIMES) :=
          fun hc => hc.2 hm
        have hc2 : (dt = .PASSPORT ∨ dt = .DRIVERS_LICENCE) ∧ MAX_ID_BYTES < f.size := ⟨hid, hsz⟩
        simp only [uploadHandler, hfile, hdt]
        rw [if_neg hc1, if_pos hc2]
        simp [UploadResponse.httpStatus]
      · have hcond : (dt = .PASSPORT ∨ dt = .DRIVERS_LICENCE) ∧ f.mimetype ∉ ALLOWED_ID_MIMES :=
          ⟨hid, hm⟩
        simp only [uploadHandler, hfile, hdt]
        rw [if_pos hcond]
        simp [UploadResponse.httpStatus]

/-- Witness for C7 at a concrete input (unknown category). -/
theorem upload_invalid_input_no_store_access_witness :
    ((some "OTHER" : Option String).bind parseDocType = none) ∧
    ((uploadHandler ⟨1, some ⟨"x.txt", "text/plain", 10⟩, some "OTHER"⟩ ⟨.error (), .error (), 99⟩ []).response.httpStatus = 400 ∧
     (uploadHandler ⟨1, some ⟨"x.txt", "text/plain", 10⟩, some "OTHER"⟩ ⟨.error (), .error (), 99⟩ []).store = [] ∧
     (uploadHandler ⟨1, some ⟨"x.txt", "text/plain", 10⟩, some "OTHER"⟩ ⟨.error (), .error (), 99⟩ []).submitCalled = false ∧
     (uploadHandler ⟨1, some ⟨"x.txt", "text/plain", 10⟩, some "OTHER"⟩ ⟨.error (), .error (), 99⟩ []).touchedId = none) :=
  ⟨by decide, upload_invalid_input_no_store_access (Or.inl (by decide))⟩

/-- C9 (amended): for an owned document, the result endpoint fails with
`InvalidState` (HTTP 400) whenever the stored state is neither `DONE`
nor `FAILED` — `CLASSIFICATION_FAILED` included — and returns the full
document view (with `verificationResult` and `classificationResult`)
exactly when the state is `DONE` or `FAILED`. -/
theorem result_endpoint_terminal_gate
    {s : Store} {uid docId : Nat} {d : Document}
    (hfind : findByIdScoped s docId uid = some d) :
    (d.status ≠ .DONE ∧ d.status ≠ .FAILED →
      resultHandler uid docId s = .invalidState inProgressMsg) ∧
    (d.status = .DONE ∨ d.status = .FAILED →
      resultHandler uid docId s = .ok (toResultView d)) := by
  constructor
  · intro hnt
    simp only [resultHandler, hfind]
    rw [if_pos hnt]
  · intro ht
    have hc : ¬ (d.status ≠ .DONE ∧ d.status ≠ .FAILED) := by
      rcases ht with h | h <;> simp [h]
    simp only [resultHandler, hfind]
    rw [if_neg hc]

/-- Witness for C9's amended theorem at a concrete input. -/
theorem result_endpoint_terminal_gate_witness :
    findByIdScoped [(⟨7, 1, .PASSPORT, "a.jpg", "image/jpeg", .DONE, some "VID1", none, some (.obj "OK" "m"), none⟩ : Document)] 7 1 =
      some ⟨7, 1, .PASSPORT, "a.jpg", "image/jpeg", .DONE, some "VID1", none, some (.obj "OK" "m"), none⟩ ∧
    ((⟨7, 1, .PASSPORT, "a.jpg", "image/jpeg", .DONE, some "VID1", none, some (.obj "OK" "m"), none⟩ : Document).status ≠ .DONE ∧
      (⟨7, 1, .PASSPORT, "a.jpg", "image/jpeg", .DONE, some "VID1", none, some (.obj "OK" "m"), none⟩ : Document).status ≠ .FAILED →
      resultHandler 1 7 [⟨7, 1, .PASSPORT, "a.jpg", "image/jpeg", .DONE, some "VID1", none, some (.obj "OK" "m"), none⟩] = .invalidState inProgressMsg) ∧
    ((⟨7, 1, .PASSPORT, "a.jpg", "image/jpeg", .DONE, some "VID1", none, some (.obj "OK" "m"), none⟩ : Document).status = .DONE ∨
      (⟨7, 1, .PASSPORT, "a.jpg", "image/jpeg", .DONE, some "VID1", none, some (.obj "OK" "m"), none⟩ : Document).status = .FAILED →
      resultHandler 1 7 [⟨7, 1, .PASSPORT, "a.jpg", "image/jpeg", .DONE, some "VID1", none, some (.obj "OK" "m"), none⟩] =
        .ok (toResultView ⟨7, 1, .PASSPORT, "a.jpg", "image/jpeg", .DONE, some "VID1", none, some (.obj "OK" "m"), none⟩)) :=
  ⟨by decide, result_endpoint_terminal_gate rfl⟩

/-- C9 counterexample: a document in `CLASSIFICATION_FAILED` — a terminal
state per the spec — owned by the requester gets `InvalidState` from the
result endpoint rather than the full document the claim promises. -/
theorem result_endpoint_classification_failed_counterexample :
    resultHandler 1 7
      [⟨7, 1, .PASSPORT, "a.jpg", "image/jpeg", .CLASSIFICATION_FAILED, none, some "bad doc", none, none⟩] =
      .invalidState inProgressMsg := by
  decide

/-- C10: for a requester who does not own any document with the given id
(including the case that no such document exists at all), both the status
and the result endpoint answer exactly `NotFound` with the same body and
without touching the store, and the responses coincide with those for an
empty store — so the two cases are indistinguishable to the caller. -/
theorem cross_owner_reads_not_found
    {s : Store} {uid docId : Nat} (po : Except Unit VerifyStatusResult)
    (h : ∀ d ∈ s, d.id = docId → d.userId ≠ uid) :
    statusHandler uid docId po s = (.notFound notFoundMsg, s) ∧
    resultHandler uid docId s = .notFound notFoundMsg ∧
    (statusHandler uid docId po s).1 = (statusHandler uid docId po []).1 ∧
    resultHandler uid docId s = resultHandler uid docId [] := by
  have hnone : findByIdScoped s docId uid = none := by
    rw [findByIdScoped, List.find?_eq_none]
    intro x hx
    simp only [Bool.and_eq_true, beq_iff_eq, not_and]
    intro hid huid
    exact h x hx hid huid
  have hnone2 : List.find? (fun d => d.id == docId && d.userId == uid) s = none := hnone
  refine ⟨?_, ?_, ?_, ?_⟩ <;>
    simp [statusHandler, resultHandler, findByIdScoped, hnone, hnone2]

/-- Witness for C10 at a concrete input (row owned by user 2, read by user 1). -/
theorem cross_owner_reads_not_found_witness :
    (∀ d ∈ [(⟨7, 2, .RESUME, "cv.pdf", "application/pdf", .DONE, none, none, none, none⟩ : Document)], d.id = 7 → d.userId ≠ 1) ∧
    (statusHandler 1 7 (.error ()) [⟨7, 2, .RESUME, "cv.pdf", "application/pdf", .DONE, none, none, none, none⟩] =
      (.notFound notFoundMsg, [⟨7, 2, .RESUME, "cv.pdf", "application/pdf", .DONE, none, none, none, none⟩]) ∧
     resultHandler 1 7 [⟨7, 2, .RESUME, "cv.pdf", "application/pdf", .DONE, none, none, none, none⟩] = .notFound notFoundMsg ∧
     (statusHandler 1 7 (.error ()) [⟨7, 2, .RESUME, "cv.pdf", "application/pdf", .DONE, none, none, none, none⟩]).1 =
       (statusHandler 1 7 (.error ()) []).1 ∧
     resultHandler 1 7 [⟨7, 2, .RESUME, "cv.pdf", "application/pdf", .DONE, none, none, none, none⟩] =
       resultHandler 1 7 []) :=
  ⟨by decide, cross_owner_reads_not_found (.error ()) (by decide)⟩

/-- C2: a RESUME upload whose external submit call throws ends with the
stored document in state `DONE` — never `FAILED` — carrying a
verificationResult payload whose status is "SKIPPED". -/
theorem resume_submit_failure_ends_done_skipped
    {req : UploadRequest} {ext : UploadExt} {s : Store} {f : FileInfo}
    (hfile : req.file = some f)
    (hdt : req.documentTypeField.bind parseDocType = some .RESUME)
    (hnd : ∀ d, findByUserType s req.userId .RESUME = some d → d.status ≠ .DONE)
    (hids : okStore s) (hfresh : lookupId s ext.freshId = none)
    (hsub : ext.submitOutcome = .error ()) :
    ∃ i d, (uploadHandler req ext s).touchedId = some i ∧
      lookupId (uploadHandler req ext s).store i = some d ∧
      d.status = .DONE ∧ d.status ≠ .FAILED ∧
      d.verificationResult = some (.obj "SKIPPED" resumeSkippedMessage) := by
  have hred := uploadHandler_to_branch ext hfile hdt (fun hc => absurd hc (by decide))
    (fun hc => absurd hc (by decide)) hnd
  rw [hred, if_neg (by decide)]
  obtain ⟨i, d, h1, h2, h3, h4, h5, h6⟩ :=
    resumeBranch_submit_failure req.userId ext f s hids hfresh hsub
  exact ⟨i, d, h1, h2, h3, by rw [h3]; decide, h4⟩

/-- Witness for C2 at a concrete input (first-time resume upload, submit throws). -/
theorem resume_submit_failure_ends_done_skipped_witness :
    okStore ([] : Store) ∧
    (∃ i d, (uploadHandler ⟨1, some ⟨"cv.pdf", "application/pdf", 10⟩, some "RESUME"⟩ ⟨.error (), .error (), 5⟩ []).touchedId = some i ∧
      lookupId (uploadHandler ⟨1, some ⟨"cv.pdf", "application/pdf", 10⟩, some "RESUME"⟩ ⟨.error (), .error (), 5⟩ []).store i = some d ∧
      d.status = .DONE ∧ d.status ≠ .FAILED ∧
      d.verificationResult = some (.obj "SKIPPED" resumeSkippedMessage)) :=
  ⟨List.Pairwise.nil,
   resume_submit_failure_ends_done_skipped rfl rfl (fun _ hd => Option.noConfusion hd)
     List.Pairwise.nil rfl rfl⟩

/-- C3 (code-bug exhibit): after a RESUME upload whose submit call throws,
the stored row evaluates to state `DONE` while still carrying the stale
`errorMessage` written by the rethrowing submit helper — contradicting the
invariant that `errorMessage` is non-null only in failure states. -/
theorem done_resume_keeps_stale_message :
    (lookupId (uploadHandler ⟨1, some ⟨"cv.pdf", "application/pdf", 10⟩, some "RESUME"⟩
        ⟨.error (), .error (), 5⟩ []).store 5).map (fun d => (d.status, d.errorMessage)) =
      some (.DONE, some submitFailStoredMsg) := by
  decide

/-- C5: a status request on an owned `PROCESSING` document with a truthy
verify id whose poll returns a terminal status persists that status and
the poll payload exactly once; a second status request (with any poll
outcome) performs no store write and returns the same terminal state. -/
theorem status_poll_terminal_persists_once
    {s : Store} {uid docId : Nat} {d : Document} {r : VerifyStatusResult}
    (hids : okStore s)
    (hfind : findByIdScoped s docId uid = some d)
    (hst : d.status = .PROCESSING)
    (hvid : truthy d.documentVerifyId = true)
    (hr : r.status = .DONE ∨ r.status = .FAILED)
    (po2 : Except Unit VerifyStatusResult) :
    statusHandler uid docId (.ok r) s =
      (.ok docId (pollStatusToDoc r.status) true,
        updateById s docId (fun e => { e with status := pollStatusToDoc r.status, verificationResult := some (.pollResult r) })) ∧
    findByIdScoped
        (updateById s docId (fun e => { e with status := pollStatusToDoc r.status, verificationResult := some (.pollResult r) }))
        docId uid =
      some { d with status := pollStatusToDoc r.status, verificationResult := some (.pollResult r) } ∧
    statusHandler uid docId po2
        (updateById s docId (fun e => { e with status := pollStatusToDoc r.status, verificationResult := some (.pollResult r) })) =
      (.ok docId (pollStatusToDoc r.status) true,
        updateById s docId (fun e => { e with status := pollStatusToDoc r.status, verificationResult := some (.pollResult r) })) := by
  have hp := findByIdScoped_props hfind
  have h1 : statusHandler uid docId (.ok r) s =
      (.ok docId (pollStatusToDoc r.status) true,
        updateById s docId (fun e => { e with status := pollStatusToDoc r.status, verificationResult := some (.pollResult r) })) := by
    simp only [statusHandler, hfind]
    rw [if_pos ⟨hst, hvid⟩, if_pos hr, hp.1]
  have hscope := findByIdScoped_updateById s docId uid
    (fun e => { e with status := pollStatusToDoc r.status, verificationResult := some (.pollResult r) })
    hids (fun e => rfl) (fun e => rfl)
  have h2 : findByIdScoped
      (updateById s docId (fun e => { e with status := pollStatusToDoc r.status, verificationResult := some (.pollResult r) }))
      docId uid =
      some { d with status := pollStatusToDoc r.status, verificationResult := some (.pollResult r) } := by
    rw [hscope, hfind]
    rfl
  have hterm : ¬ (pollStatusToDoc r.status = DocumentStatus.PROCESSING ∧
      truthy d.documentVerifyId = true) := by
    rcases hr with h | h <;> rw [h] <;> exact fun hc => by cases hc.1
  have hhas : hasResultOf (pollStatusToDoc r.status) = true := by
    rcases hr with h | h <;> rw [h] <;> rfl
  have h3 : statusHandler uid docId po2
      (updateById s docId (fun e => { e with status := pollStatusToDoc r.status, verificationResult := some (.pollResult r) })) =
      (.ok docId (pollStatusToDoc r.status) true,
        updateById s docId (fun e => { e with status := pollStatusToDoc r.status, verificationResult := some (.pollResult r) })) := by
    simp only [statusHandler, h2]
    rw [if_neg hterm, hhas, hp.1]
  exact ⟨h1, h2, h3⟩

/-- Witness for C5 at a concrete input. -/
theorem status_poll_terminal_persists_once_witness :
    okStore [(⟨7, 1, .PASSPORT, "a.jpg", "image/jpeg", .PROCESSING, some "VID1", none, none, none⟩ : Document)] ∧
    statusHandler 1 7 (.ok ⟨"VID1", .DONE, "x"⟩)
        [⟨7, 1, .PASSPORT, "a.jpg", "image/jpeg", .PROCESSING, some "VID1", none, none, none⟩] =
      (.ok 7 (pollStatusToDoc .DONE) true,
        updateById [⟨7, 1, .PASSPORT, "a.jpg", "image/jpeg", .PROCESSING, some "VID1", none, none, none⟩] 7
          (fun e => { e with status := pollStatusToDoc PollStatus.DONE, verificationResult := some (.pollResult ⟨"VID1", .DONE, "x"⟩) })) :=
  ⟨by unfold okStore; decide,
   (@status_poll_terminal_persists_once
      [⟨7, 1, .PASSPORT, "a.jpg", "image/jpeg", .PROCESSING, some "VID1", none, none, none⟩] 1 7
      ⟨7, 1, .PASSPORT, "a.jpg", "image/jpeg", .PROCESSING, some "VID1", none, none, none⟩
      ⟨"VID1", .DONE, "x"⟩
      (by unfold okStore; decide) rfl rfl (by decide) (Or.inl rfl) (.error ())).1⟩

/-- C6: for a PASSPORT or DRIVERS_LICENCE upload that reaches the
classify step with a returned classification, the external submit is
made exactly when the category rule accepts it (country code `PHL` and
the matching document-type code); when the rule rejects, the document
ends in `CLASSIFICATION_FAILED` with a message naming the detected
country/type and the expected type, and submit is never called. -/
theorem classification_rule_gates_submission
    {req : UploadRequest} {ext : UploadExt} {s : Store} {f : FileInfo}
    {dt : DocumentType} {c : ClassificationResult}
    (hfile : req.file = some f)
    (hdt : req.documentTypeField.bind parseDocType = some dt)
    (hid : dt = .PASSPORT ∨ dt = .DRIVERS_LICENCE)
    (hmime : f.mimetype ∈ ALLOWED_ID_MIMES)
    (hsize : f.size ≤ MAX_ID_BYTES)
    (hnd : ∀ d, findByUserType s req.userId dt = some d → d.status ≠ .DONE)
    (hids : okStore s) (hfresh : lookupId s ext.freshId = none)
    (hcls : ext.classifyOutcome = .ok c) :
    ((uploadHandler req ext s).submitCalled = true ↔
      ((dt = .PASSPORT ∧ isValidPhilippinesPassport c = true) ∨
       (dt = .DRIVERS_LICENCE ∧ isValidPhilippinesDriversLicence c = true))) ∧
    (classificationAccepted dt c = false →
      ∃ i d, (uploadHandler req ext s).touchedId = some i ∧
        lookupId (uploadHandler req ext s).store i = some d ∧
        d.status = .CLASSIFICATION_FAILED ∧
        d.errorMessage = some (appearsMsg (getDocumentDescription c) (expectedTypeFor dt)) ∧
        (uploadHandler req ext s).submitCalled = false ∧
        (uploadHandler req ext s).response =
          .errClassify 400 (invalidDocRespMsg (expectedTypeFor dt) (getDocumentDescription c)) c) := by
  have hred := uploadHandler_to_branch ext hfile hdt (fun _ => hmime) (fun _ => hsize) hnd
  rw [hred, if_pos hid]
  constructor
  · rw [classifyBranch_submitCalled req.userId ext dt f s c hcls]
    rcases hid with h | h <;> subst h <;> simp [classificationAccepted]
  · intro hacc
    obtain ⟨i, d, h1, h2, h3, h4, h5, h6, h7⟩ :=
      classifyBranch_invalid req.userId ext dt f s c hids hfresh hcls hacc
    exact ⟨i, d, h1, h2, h3, h4, h6, h7⟩

/-- Witness for C6 at a concrete input (Australian passport classification
against a PASSPORT upload). -/
theorem classification_rule_gates_submission_witness :
    okStore ([] : Store) ∧
    ((uploadHandler ⟨1, some ⟨"p.jpg", "image/jpeg", 100⟩, some "PASSPORT"⟩
        ⟨.ok ⟨some ⟨"AUS", "Australia"⟩, some ⟨"PASSPORT", "Passport"⟩⟩, .error (), 5⟩ []).submitCalled = true ↔
      ((DocumentType.PASSPORT = .PASSPORT ∧
          isValidPhilippinesPassport ⟨some ⟨"AUS", "Australia"⟩, some ⟨"PASSPORT", "Passport"⟩⟩ = true) ∨
       (DocumentType.PASSPORT = .DRIVERS_LICENCE ∧
          isValidPhilippinesDriversLicence ⟨some ⟨"AUS", "Australia"⟩, some ⟨"PASSPORT", "Passport"⟩⟩ = true))) :=
  ⟨List.Pairwise.nil,
   (@classification_rule_gates_submission
      ⟨1, some ⟨"p.jpg", "image/jpeg", 100⟩, some "PASSPORT"⟩
      ⟨.ok ⟨some ⟨"AUS", "Australia"⟩, some ⟨"PASSPORT", "Passport"⟩⟩, .error (), 5⟩
      [] ⟨"p.jpg", "image/jpeg", 100⟩ .PASSPORT
      ⟨some ⟨"AUS", "Australia"⟩, some ⟨"PASSPORT", "Passport"⟩⟩
      rfl rfl (Or.inl rfl) (by decide) (by decide)
      (fun _ hd => Option.noConfusion hd) List.Pairwise.nil rfl rfl).1⟩

/-- C8 (amended): for a PASSPORT/DRIVERS_LICENCE upload that reaches the
classify step, the raw classification payload is persisted into
`classificationResult` whenever classify() returns a payload — whether
the category rule accepts or rejects it and whatever the later submit
does — while if classify() itself throws there is no payload to persist
and `classificationResult` is left null (cleared by the upload upsert). -/
theorem classification_payload_persisted
    {req : UploadRequest} {ext : UploadExt} {s : Store} {f : FileInfo} {dt : DocumentType}
    (hfile : req.file = some f)
    (hdt : req.documentTypeField.bind parseDocType = some dt)
    (hid : dt = .PASSPORT ∨ dt = .DRIVERS_LICENCE)
    (hmime : f.mimetype ∈ ALLOWED_ID_MIMES)
    (hsize : f.size ≤ MAX_ID_BYTES)
    (hnd : ∀ d, findByUserType s req.userId dt = some d → d.status ≠ .DONE)
    (hids : okStore s) (hfresh : lookupId s ext.freshId = none) :
    (∀ c, ext.classifyOutcome = .ok c →
      ∃ i d, (uploadHandler req ext s).touchedId = some i ∧
        lookupId (uploadHandler req ext s).store i = some d ∧
        d.classificationResult = some c) ∧
    (ext.classifyOutcome = .error () →
      ∃ i d, (uploadHandler req ext s).touchedId = some i ∧
        lookupId (uploadHandler req ext s).store i = some d ∧
        d.classificationResult = none) := by
  have hred := uploadHandler_to_branch ext hfile hdt (fun _ => hmime) (fun _ => hsize) hnd
  rw [hred, if_pos hid]
  constructor
  · intro c hcls
    cases hacc : classificationAccepted dt c with
    | false =>
      obtain ⟨i, d, h1, h2, h3, h4, h5, h6, h7⟩ :=
        classifyBranch_invalid req.userId ext dt f s c hids hfresh hcls hacc
      exact ⟨i, d, h1, h2, h5⟩
    | true =>
      cases hsub : ext.submitOutcome with
      | ok r =>
        obtain ⟨i, d, h1, h2, h3, h4, h5, h6⟩ :=
          classifyBranch_valid_submit_ok req.userId ext dt f s c r hids hfresh hcls hacc hsub
        exact ⟨i, d, h1, h2, h5⟩
      | error u =>
        cases u
        obtain ⟨i, d, h1, h2, h3, h4, h5, h6⟩ :=
          classifyBranch_valid_submit_error req.userId ext dt f s c hids hfresh hcls hacc hsub
        exact ⟨i, d, h1, h2, h5⟩
  · intro hcls
    obtain ⟨i, d, h1, h2, h3, h4, h5, h6, h7⟩ :=
      classifyBranch_classify_error req.userId ext dt f s hids hfresh hcls
    exact ⟨i, d, h1, h2, h5⟩

/-- Witness for C8's amended theorem at a concrete input (classify throws). -/
theorem classification_payload_persisted_witness :
    okStore ([] : Store) ∧
    ((⟨.error (), .error (), 5⟩ : UploadExt).classifyOutcome = .error () →
      ∃ i d, (uploadHandler ⟨1, some ⟨"p.jpg", "image/jpeg", 100⟩, some "PASSPORT"⟩ ⟨.error (), .error (), 5⟩ []).touchedId = some i ∧
        lookupId (uploadHandler ⟨1, some ⟨"p.jpg", "image/jpeg", 100⟩, some "PASSPORT"⟩ ⟨.error (), .error (), 5⟩ []).store i = some d ∧
        d.classificationResult = none) :=
  ⟨List.Pairwise.nil,
   (@classification_payload_persisted
      ⟨1, some ⟨"p.jpg", "image/jpeg", 100⟩, some "PASSPORT"⟩
      ⟨.error (), .error (), 5⟩ [] ⟨"p.jpg", "image/jpeg", 100⟩ .PASSPORT
      rfl rfl (Or.inl rfl) (by decide) (by decide)
      (fun _ hd => Option.noConfusion hd) List.Pairwise.nil rfl).2⟩

/-- C8 counterexample: when the classify call itself throws, the stored
row (which did reach the classify step: it ends `CLASSIFICATION_FAILED`)
has `classificationResult = null` — nothing was persisted, contrary to
the claim that the payload is persisted in that case too. -/
theorem classification_payload_counterexample :
    (lookupId (uploadHandler ⟨1, some ⟨"q.png", "image/png", 200⟩, some "PASSPORT"⟩
        ⟨.error (), .error (), 6⟩ []).store 6).map (fun d => (d.status, d.classificationResult)) =
      some (.CLASSIFICATION_FAILED, none) := by
  decide

end TruuthPortal
